import Mathlib

/-!
Shallow embedding of `scraper_base` (driver_builder.py and cookie_storage.py)
together with proofs about the claims of its specification.

External collaborators (selenium's `webdriver.Remote`, `webdriver.Chrome`,
`ChromeDriverManager.install`, the filesystem and `pickle`) are modelled as
explicit parameters or explicit state; everything written by the repository's
own code is translated line by line.
-/

namespace ScraperBase

/-- A cookie record as stored by selenium: an opaque dictionary.  The fields
here are the ones the spec's data model names; the builder/storage code never
inspects them, it only moves whole records around. -/
structure Cookie where
  name : String
  value : String
  domain : String
  path : String
  expiry : Option Int
  secure : Bool
deriving DecidableEq, Repr

/-- The observable state of a live web-driver handle.  Counters record how
often each post-creation configuration effect has been applied, so that the
"exactly once" claims are statable. -/
structure Driver where
  /-- value passed to the last `implicitly_wait` call, if any -/
  implicitWait : Option Int := none
  /-- number of `implicitly_wait` calls made on this handle -/
  implicitWaitSets : Nat := 0
  /-- number of times the stealth (automation-detection-suppression) script
  was executed on this handle -/
  stealthScriptRuns : Nat := 0
  /-- cookies currently installed in the session -/
  cookies : List Cookie := []
  /-- number of `refresh` calls made on this handle -/
  refreshes : Nat := 0
deriving DecidableEq, Repr

/-- Source `WebDriverBuilder.__init__`: the configuration bundle (SessionOptions). -/
structure WebDriverBuilder where
  remote_port : Nat := 4444
  show_browser : Bool := false
  container : Bool := false
  implicit_wait_time : Int := 10
  download_directory : Option String := none
  stealth_mode : Bool := false
  agent : String := ""
deriving DecidableEq, Repr

/-- Values passed to `ChromeOptions.add_experimental_option`. -/
inductive ExpOptValue where
  /-- the prefs dictionary mapping download.default_directory to a path -/
  | prefsDownloadDir (dir : String)
  /-- a list of switch names -/
  | switchList (l : List String)
  /-- a boolean flag -/
  | boolVal (b : Bool)
deriving DecidableEq, Repr

/-- selenium's `webdriver.ChromeOptions` accumulator. -/
structure ChromeOptions where
  arguments : List String := []
  experimental : List (String × ExpOptValue) := []
deriving DecidableEq, Repr

/-- Source `ChromeOptions.add_argument`. -/
def ChromeOptions.add_argument (o : ChromeOptions) (a : String) : ChromeOptions :=
  { o with arguments := o.arguments ++ [a] }

/-- Source `ChromeOptions.add_experimental_option`. -/
def ChromeOptions.add_experimental_option (o : ChromeOptions) (k : String)
    (v : ExpOptValue) : ChromeOptions :=
  { o with experimental := o.experimental ++ [(k, v)] }

/-- Source `WebDriverBuilder._chrome_options`: the pure translation from the option
bundle to browser launch arguments. -/
def WebDriverBuilder.chrome_options (b : WebDriverBuilder) : ChromeOptions :=
  let opts : ChromeOptions := {}
  let opts := if !b.show_browser then opts.add_argument "--headless" else opts
  let opts := if b.container then
      ((opts.add_argument "--no-sandbox").add_argument
        "--disable-dev-shm-usage").add_argument "--disable-gpu"
    else opts
  let opts := match b.download_directory with
    | some dir => opts.add_experimental_option "prefs" (.prefsDownloadDir dir)
    | none => opts
  let opts := if b.stealth_mode then
      (opts.add_experimental_option "excludeSwitches"
        (.switchList ["enable-automation"])).add_experimental_option
        "useAutomationExtension" (.boolVal false)
    else opts
  let opts := if b.agent ≠ "" then opts.add_argument ("user-agent=" ++ b.agent)
    else opts
  opts

/-- Source `WebDriverBuilder._config_driver`: post-creation configuration. -/
def WebDriverBuilder.config_driver (b : WebDriverBuilder) (d : Driver) : Driver :=
  let d := if 0 < b.implicit_wait_time then
      { d with implicitWait := some b.implicit_wait_time,
               implicitWaitSets := d.implicitWaitSets + 1 }
    else d
  if b.stealth_mode then
    { d with stealthScriptRuns := d.stealthScriptRuns + 1 }
  else d

/-- Result of `_build_remote`, together with the trace of observable effects:
how many connection attempts were made and the durations of the `time.sleep`
calls, in order. -/
structure RemoteOutcome where
  driver : Option Driver
  attempts : Nat
  sleeps : List Int
deriving DecidableEq, Repr

/-- Source `WebDriverBuilder._build_remote`.  The remote-connect collaborator
(`webdriver.Remote(url)`) is the parameter `connect`, mapping the 1-based
attempt number to the handle it produces, or `none` when that attempt raises.
`retry_delay` is the `retry_delay: int = 5` parameter of the source; the
recursive call leaves it at its default, and the body never reads it.
The source guard `if retry_count <= 0: return None` becomes the `0` case
(the budget is a count, never negative at the call sites). -/
def WebDriverBuilder.build_remote (b : WebDriverBuilder)
    (connect : Nat → Option Driver) :
    (retry_count : Nat) → (retry_delay : Int) → RemoteOutcome
  | 0, _ => ⟨none, 0, []⟩
  | Nat.succ r, _ =>
    match connect 1 with
    | some d => ⟨some (b.config_driver d), 1, []⟩
    | none =>
      let rest := b.build_remote (fun n => connect (n + 1)) r 5
      ⟨rest.driver, rest.attempts + 1, ((r : Int) + 1) :: rest.sleeps⟩

/-- The error raised by `build`: `WebDriverBuilder.RemoteDriverTimeout`. -/
inductive BuildError where
  | RemoteDriverTimeout
deriving DecidableEq, Repr

/-- Constant `ChromeType.GOOGLE` from webdriver_manager. -/
def ChromeType.GOOGLE : String := "google-chrome"

/-- Constant `ChromeType.CHROMIUM` from webdriver_manager. -/
def ChromeType.CHROMIUM : String := "chromium"

/-- The external collaborators of the builder: the driver-installer
(`ChromeDriverManager(chrome_type).install()`), the local launch collaborator
(`webdriver.Chrome(options, service)`) and the remote connect collaborator
(`webdriver.Remote(url)` on the n-th attempt). -/
structure Collaborators where
  install : String → String
  launchChrome : ChromeOptions → String → Driver
  remoteConnect : Nat → Option Driver

/-- Source `WebDriverBuilder._build_chrome`. -/
def WebDriverBuilder.build_chrome (b : WebDriverBuilder) (co : Collaborators)
    (options : ChromeOptions) (chrome_type : String) : Driver :=
  let path := co.install chrome_type
  let driver := co.launchChrome options path
  b.config_driver driver

/-- Source `WebDriverBuilder.STANDALONE_LOCAL_URL`. -/
def STANDALONE_LOCAL_URL : String := "http://localhost:4444"

/-- Everything observable about one `build` call: the returned value — the
source's `match` has no default case, so an unrecognized driver type falls
through and the function returns `None`, hence the `Option Driver` inside
`Except` — plus the remote-connection trace and whether the debug-view URL
was opened (`os.system("open ...")`). -/
structure BuildOutcome where
  result : Except BuildError (Option Driver)
  remoteAttempts : Nat
  remoteSleeps : List Int
  debugViewOpened : Bool
deriving Repr

/-- Source `WebDriverBuilder.build`.  `DriverType(str, Enum)` is a string-valued
enum, so the dispatch is modelled on the underlying strings "chrome",
"chromium", "standalone"; any other value matches no case and the source
returns `None` implicitly. -/
def WebDriverBuilder.build (b : WebDriverBuilder) (co : Collaborators)
    (driver_type : String) : BuildOutcome :=
  if driver_type = "chrome" then
    ⟨.ok (some (b.build_chrome co b.chrome_options ChromeType.GOOGLE)), 0, [], false⟩
  else if driver_type = "chromium" then
    ⟨.ok (some (b.build_chrome co b.chrome_options ChromeType.CHROMIUM)), 0, [], false⟩
  else if driver_type = "standalone" then
    let opened := b.show_browser
    let out := b.build_remote co.remoteConnect 3 5
    match out.driver with
    | none => ⟨.error .RemoteDriverTimeout, out.attempts, out.sleeps, opened⟩
    | some d => ⟨.ok (some d), out.attempts, out.sleeps, opened⟩
  else
    ⟨.ok none, 0, [], false⟩

/-- The filesystem as the cookie code sees it: paths mapped to the pickled
cookie list stored there.  `pickle.dump`/`pickle.load` round-trip a Python
list exactly, so the blob is modelled as the list itself. -/
abbrev FS : Type := List (String × List Cookie)

/-- Reading `open(path, "rb")` + `pickle.load`: the decoded blob, or `none` when the
file does not exist (`FileNotFoundError`). -/
def FS.read (fs : FS) (p : String) : Option (List Cookie) :=
  match fs with
  | [] => none
  | (q, blob) :: rest => if q = p then some blob else FS.read rest p

/-- Writing `open(path, "wb")` + `pickle.dump`: truncate and write the whole blob. -/
def FS.write (fs : FS) (p : String) (blob : List Cookie) : FS :=
  (p, blob) :: fs

/-- Source `CookieStorage.__init__`: the store holds only its location. -/
structure CookieStorage where
  location : String
deriving DecidableEq, Repr

/-- The world a `CookieStorage` call touches: the store itself, the driver
handle passed in, and the filesystem. -/
structure World where
  store : CookieStorage
  driver : Driver
  fs : FS

/-- Source `CookieStorage.save`: read the session's cookie set
(`driver.get_cookies()`, a pure read) and dump it to the store's location. -/
def CookieStorage.save (w : World) : World :=
  let cookies := w.driver.cookies
  { w with fs := w.fs.write w.store.location cookies }

/-- Collaborator `driver.add_cookie(cookie)`: the collaborator either installs the record
or raises (e.g. `InvalidCookieDomainException` on a domain mismatch).  Which
happens is external to this repository, so it is the parameter `ok`. -/
def Driver.add_cookie (ok : Cookie → Bool) (d : Driver) (c : Cookie) :
    Except Unit Driver :=
  if ok c then .ok { d with cookies := d.cookies ++ [c] } else .error ()

/-- The `for cookie in cookies: driver.add_cookie(cookie)` loop: sequential,
with no per-record exception handling, so the first failing record aborts
the rest. -/
def installAll (ok : Cookie → Bool) (d : Driver) :
    List Cookie → Except Unit Driver
  | [] => .ok d
  | c :: rest => match Driver.add_cookie ok d c with
    | .ok d2 => installAll ok d2 rest
    | .error e => .error e

/-- Collaborator `driver.refresh()`. -/
def Driver.refresh (d : Driver) : Driver :=
  { d with refreshes := d.refreshes + 1 }

/-- Source `CookieStorage.load`.  The `try` block catches only `FileNotFoundError`
(the missing-file read), returning `false`; any exception raised by
`driver.add_cookie` inside the loop propagates out of `load`, which the
`Except` layer records.  On normal completion the result carries the updated
driver and the returned boolean. -/
def CookieStorage.load (w : World) (ok : Cookie → Bool)
    (refresh : Bool := true) : Except Unit (Driver × Bool) :=
  match w.fs.read w.store.location with
  | none => .ok (w.driver, false)
  | some cookies =>
    if cookies.isEmpty then .ok (w.driver, false)
    else match installAll ok w.driver cookies with
      | .error e => .error e
      | .ok d2 =>
        let d3 := if refresh then d2.refresh else d2
        .ok (d3, true)

/-! ## Helper definitions and lemmas -/

/-- The sleep durations recorded by an exhausted retry run with budget `N`:
`N, N-1, ..., 1`. -/
def decSleeps : Nat → List Int
  | 0 => []
  | Nat.succ r => ((r : Int) + 1) :: decSleeps r

/-- A remote-connect collaborator that fails on every attempt, plus trivial
local collaborators. -/
def failCollab : Collaborators :=
  ⟨fun _ => "path", fun _ _ => {}, fun _ => none⟩

theorem build_remote_all_fail (b : WebDriverBuilder) (N : Nat) :
    ∀ (connect : Nat → Option Driver) (delay : Int), (∀ n, connect n = none) →
      b.build_remote connect N delay = ⟨none, N, decSleeps N⟩ := by
  induction N with
  | zero => intro connect delay _; rfl
  | succ r ih =>
    intro connect delay h
    have hrest := ih (fun n => connect (n + 1)) 5 (fun n => h (n + 1))
    simp [WebDriverBuilder.build_remote, h 1, hrest, decSleeps]

theorem build_remote_first_success (b : WebDriverBuilder) (N : Nat) :
    ∀ (connect : Nat → Option Driver) (delay : Int) (k : Nat) (d : Driver),
      1 ≤ k → k ≤ N → (∀ n, n < k → connect n = none) → connect k = some d →
      (b.build_remote connect N delay).attempts = k ∧
      (b.build_remote connect N delay).driver = some (b.config_driver d) := by
  induction N with
  | zero => intro connect delay k d h1 h2 _ _; omega
  | succ r ih =>
    intro connect delay k d h1 h2 hlt hk
    cases k with
    | zero => omega
    | succ k' =>
      cases k' with
      | zero => simp [WebDriverBuilder.build_remote, hk]
      | succ k'' =>
        have hc1 : connect 1 = none := hlt 1 (by omega)
        obtain ⟨ha, hd⟩ := ih (fun n => connect (n + 1)) 5 (k'' + 1) d (by omega)
          (by omega) (fun n hn => hlt (n + 1) (by omega)) hk
        refine ⟨?_, ?_⟩ <;> simp [WebDriverBuilder.build_remote, hc1, ha, hd]

theorem build_remote_delay_unused (b : WebDriverBuilder)
    (connect : Nat → Option Driver) (N : Nat) (d1 d2 : Int) :
    b.build_remote connect N d1 = b.build_remote connect N d2 := by
  cases N <;> rfl

theorem build_remote_driver_some (b : WebDriverBuilder) (N : Nat) :
    ∀ (connect : Nat → Option Driver) (delay : Int) (d : Driver),
      (b.build_remote connect N delay).driver = some d →
      ∃ k d0, connect k = some d0 ∧ d = b.config_driver d0 := by
  induction N with
  | zero => intro connect delay d h; simp [WebDriverBuilder.build_remote] at h
  | succ r ih =>
    intro connect delay d h
    cases hc : connect 1 with
    | some d0 =>
      simp [WebDriverBuilder.build_remote, hc] at h
      exact ⟨1, d0, hc, h.symm⟩
    | none =>
      simp [WebDriverBuilder.build_remote, hc] at h
      obtain ⟨k, d0, hk, hd⟩ := ih (fun n => connect (n + 1)) 5 d h
      exact ⟨k + 1, d0, hk, hd⟩

theorem build_remote_sleeps_get (b : WebDriverBuilder) (N : Nat) :
    ∀ (connect : Nat → Option Driver) (delay : Int) (i : Nat)
      (h : i < (b.build_remote connect N delay).sleeps.length),
      (b.build_remote connect N delay).sleeps.get ⟨i, h⟩ = (N : Int) - i := by
  induction N with
  | zero => intro connect delay i h; simp [WebDriverBuilder.build_remote] at h
  | succ r ih =>
    intro connect delay i h
    cases hc : connect 1 with
    | some d0 =>
      rw [show (b.build_remote connect (r + 1) delay).sleeps = [] by
        simp [WebDriverBuilder.build_remote, hc]] at h
      simp at h
    | none =>
      have hs : (b.build_remote connect (r + 1) delay).sleeps =
          ((r : Int) + 1) :: (b.build_remote (fun n => connect (n + 1)) r 5).sleeps := by
        simp [WebDriverBuilder.build_remote, hc]
      cases i with
      | zero => simp [List.get, hs]
      | succ j =>
        have hj : j < (b.build_remote (fun n => connect (n + 1)) r 5).sleeps.length := by
          rw [hs] at h; simpa using h
        have hstep := ih (fun n => connect (n + 1)) 5 j hj
        have hred : (b.build_remote connect (r + 1) delay).sleeps.get ⟨j + 1, h⟩ =
            (b.build_remote (fun n => connect (n + 1)) r 5).sleeps.get ⟨j, hj⟩ := by
          rw [List.get_of_eq hs]; rfl
        rw [hred, hstep]
        push_cast
        ring

theorem build_remote_sleeps_sum_le (b : WebDriverBuilder) (N : Nat) :
    ∀ (connect : Nat → Option Driver) (delay : Int),
      (b.build_remote connect N delay).sleeps.sum ≤ (decSleeps N).sum := by
  induction N with
  | zero => intro connect delay; simp [WebDriverBuilder.build_remote, decSleeps]
  | succ r ih =>
    intro connect delay
    cases hc : connect 1 with
    | some d0 =>
      simp [WebDriverBuilder.build_remote, hc, decSleeps]
      have : (0 : Int) ≤ (decSleeps r).sum := by
        clear ih hc
        induction r with
        | zero => simp [decSleeps]
        | succ s ihs => simp [decSleeps]; omega
      omega
    | none =>
      simp [WebDriverBuilder.build_remote, hc, decSleeps]
      exact ih (fun n => connect (n + 1)) 5

theorem config_driver_on_fresh (b : WebDriverBuilder) (d : Driver)
    (h1 : d.implicitWaitSets = 0) (h2 : d.stealthScriptRuns = 0) :
    (0 < b.implicit_wait_time →
      (b.config_driver d).implicitWait = some b.implicit_wait_time ∧
      (b.config_driver d).implicitWaitSets = 1) ∧
    (b.stealth_mode = true → (b.config_driver d).stealthScriptRuns = 1) := by
  unfold WebDriverBuilder.config_driver
  by_cases hw : 0 < b.implicit_wait_time <;> by_cases hst : b.stealth_mode = true <;>
    simp [hw, hst, h1, h2]

theorem FS.read_write_same (fs : FS) (p : String) (blob : List Cookie) :
    (fs.write p blob).read p = some blob := by
  simp [FS.write, FS.read]

theorem FS.read_write_other (fs : FS) (p q : String) (blob : List Cookie)
    (h : p ≠ q) : (fs.write p blob).read q = fs.read q := by
  simp [FS.write, FS.read, h]

theorem installAll_all_ok (ok : Cookie → Bool) (cs : List Cookie) :
    ∀ (d : Driver), (∀ c ∈ cs, ok c = true) →
      installAll ok d cs = .ok { d with cookies := d.cookies ++ cs } := by
  induction cs with
  | nil => intro d _; simp [installAll]
  | cons c rest ih =>
    intro d h
    have hc : ok c = true := h c (List.mem_cons_self c rest)
    have hrest := ih { d with cookies := d.cookies ++ [c] }
      (fun x hx => h x (List.mem_cons_of_mem c hx))
    simp [installAll, Driver.add_cookie, hc, hrest]

theorem load_installs_exactly (store : CookieStorage) (fresh : Driver) (fs : FS)
    (cs : List Cookie) (ok : Cookie → Bool) (refresh : Bool)
    (hread : fs.read store.location = some cs)
    (hne : cs ≠ []) (hok : ∀ c ∈ cs, ok c = true) (hfresh : fresh.cookies = []) :
    ∃ d2, CookieStorage.load ⟨store, fresh, fs⟩ ok refresh = Except.ok (d2, true) ∧
      d2.cookies = cs := by
  have hne' : cs.isEmpty = false := by
    cases cs with
    | nil => exact absurd rfl hne
    | cons a l => rfl
  have hinst := installAll_all_ok ok cs fresh hok
  cases refresh with
  | true =>
    refine ⟨({ fresh with cookies := fresh.cookies ++ cs }).refresh, ?_, by
      simp [Driver.refresh, hfresh]⟩
    simp [CookieStorage.load, hread, hne', hinst]
  | false =>
    refine ⟨{ fresh with cookies := fresh.cookies ++ cs }, ?_, by simp [hfresh]⟩
    simp [CookieStorage.load, hread, hne', hinst]

/-- Concrete objects used to instantiate the theorems below. -/
def demoCookie : Cookie := ⟨"sid", "abc123", "example.com", "/", none, true⟩

/-- A second well-formed cookie record. -/
def demoCookie2 : Cookie := ⟨"pref", "dark", "example.com", "/", some 99, false⟩

/-- A cookie whose domain does not match the session's current domain, so
that the live session rejects its installation. -/
def badCookie : Cookie := ⟨"stale", "x", "other.domain", "/", none, false⟩

/-- The add-cookie collaborator of a session whose current domain context is
example.com: installation succeeds exactly for records on that domain. -/
def demoOk (c : Cookie) : Bool := c.domain == "example.com"

/-- An options bundle with stealth mode on (implicit wait keeps its default
10). -/
def stealthBuilder : WebDriverBuilder := { stealth_mode := true }

/-- The handle produced by the local-chrome path of stealthBuilder with the
trivial collaborators. -/
def demoDriver : Driver :=
  stealthBuilder.build_chrome failCollab stealthBuilder.chrome_options ChromeType.GOOGLE

/-- An options bundle for a headless containerized run. -/
def containerBuilder : WebDriverBuilder := { show_browser := false, container := true }

/-! ## Claim theorems -/

/-- Claim C1, amended: the guard `if retry_count <= 0` runs before any
connection attempt, so with retry budget N and an always-failing remote
collaborator, the retry loop makes exactly N connection attempts (not N + 1)
and produces no driver; with a collaborator that first succeeds on attempt
k ≤ N it returns a configured handle after exactly k attempts; and build on
the standalone strategy with an always-failing collaborator raises
RemoteDriverTimeout after exactly 3 attempts (the default budget). -/
theorem C1_retry_attempt_counts :
    (∀ (b : WebDriverBuilder) (connect : Nat → Option Driver) (N : Nat) (delay : Int),
      (∀ n, connect n = none) →
      (b.build_remote connect N delay).attempts = N ∧
      (b.build_remote connect N delay).driver = none) ∧
    (∀ (b : WebDriverBuilder) (connect : Nat → Option Driver) (N : Nat) (delay : Int)
      (k : Nat) (d : Driver),
      1 ≤ k → k ≤ N → (∀ n, n < k → connect n = none) → connect k = some d →
      (b.build_remote connect N delay).attempts = k ∧
      (b.build_remote connect N delay).driver = some (b.config_driver d)) ∧
    (∀ (b : WebDriverBuilder) (co : Collaborators),
      (∀ n, co.remoteConnect n = none) →
      (b.build co "standalone").result = Except.error BuildError.RemoteDriverTimeout ∧
      (b.build co "standalone").remoteAttempts = 3) := by
  refine ⟨?_, ?_, ?_⟩
  · intro b connect N delay h
    rw [build_remote_all_fail b N connect delay h]
    exact ⟨rfl, rfl⟩
  · exact fun b connect N delay k d h1 h2 h3 h4 =>
      build_remote_first_success b N connect delay k d h1 h2 h3 h4
  · intro b co h
    have hb := build_remote_all_fail b 3 co.remoteConnect 5 h
    simp [WebDriverBuilder.build, hb]

/-- Witness for C1: the three parts applied at the default budget 3, an
always-failing collaborator and one that succeeds on the second attempt. -/
theorem C1_retry_attempt_counts_witness :
    (({} : WebDriverBuilder).build_remote (fun _ => none) 3 5).attempts = 3 ∧
    (({} : WebDriverBuilder).build_remote
      (fun n => if n = 2 then some {} else none) 3 5).attempts = 2 ∧
    (({} : WebDriverBuilder).build failCollab "standalone").result =
      Except.error BuildError.RemoteDriverTimeout :=
  ⟨(C1_retry_attempt_counts.1 {} (fun _ => none) 3 5 (fun _ => rfl)).1,
   (C1_retry_attempt_counts.2.1 {} (fun n => if n = 2 then some {} else none) 3 5 2 {}
      (by decide) (by decide)
      (fun n hn => by
        have hne : n ≠ 2 := by omega
        simp [hne]) rfl).1,
   (C1_retry_attempt_counts.2.2 {} failCollab (fun _ => rfl)).1⟩

/-- Counterexample for C1 as stated: with the default retry budget N = 3 and
an always-failing collaborator, build makes exactly 3 connection attempts,
not N + 1 = 4. -/
theorem C1_counterexample :
    (({} : WebDriverBuilder).build failCollab "standalone").remoteAttempts = 3 ∧
    (({} : WebDriverBuilder).build failCollab "standalone").remoteAttempts ≠ 3 + 1 ∧
    (({} : WebDriverBuilder).build failCollab "standalone").result =
      Except.error BuildError.RemoteDriverTimeout :=
  ⟨rfl, by decide, rfl⟩

/-- Claim C4: the transcribed sleep policy — the configured retry_delay
parameter never influences the outcome; the i-th sleep (0-based) equals the
remaining retry count N - i at that moment; the total sleep time is bounded
by the exhaustion total, which for the default budget 3 is 3 + 2 + 1 = 6
seconds; hence any standalone build sleeps at most 6 seconds in total
before returning or failing. -/
theorem C4_sleep_policy :
    (∀ (b : WebDriverBuilder) (connect : Nat → Option Driver) (N : Nat) (d1 d2 : Int),
      b.build_remote connect N d1 = b.build_remote connect N d2) ∧
    (∀ (b : WebDriverBuilder) (connect : Nat → Option Driver) (N : Nat) (delay : Int)
      (i : Nat) (h : i < (b.build_remote connect N delay).sleeps.length),
      (b.build_remote connect N delay).sleeps.get ⟨i, h⟩ = (N : Int) - i) ∧
    (∀ (b : WebDriverBuilder) (connect : Nat → Option Driver) (N : Nat) (delay : Int),
      (b.build_remote connect N delay).sleeps.sum ≤ (decSleeps N).sum) ∧
    (decSleeps 3).sum = 3 + 2 + 1 ∧
    (∀ (b : WebDriverBuilder) (co : Collaborators),
      (b.build co "standalone").remoteSleeps.sum ≤ 6) := by
  refine ⟨build_remote_delay_unused,
    fun b connect N delay => build_remote_sleeps_get b N connect delay,
    fun b connect N delay => build_remote_sleeps_sum_le b N connect delay,
    by decide, ?_⟩
  intro b co
  have hle := build_remote_sleeps_sum_le b 3 co.remoteConnect 5
  have h6 : (decSleeps 3).sum = 6 := by decide
  cases hdr : (b.build_remote co.remoteConnect 3 5).driver with
  | none =>
    have : (b.build co "standalone").remoteSleeps =
        (b.build_remote co.remoteConnect 3 5).sleeps := by
      simp [WebDriverBuilder.build, hdr]
    rw [this]
    omega
  | some d =>
    have : (b.build co "standalone").remoteSleeps =
        (b.build_remote co.remoteConnect 3 5).sleeps := by
      simp [WebDriverBuilder.build, hdr]
    rw [this]
    omega

/-- Witness for C4: the sleep-indexing part applied to an exhausted default
run — the first sleep lasts 3 seconds — and the build-level bound at the
always-failing collaborator. -/
theorem C4_sleep_policy_witness :
    (({} : WebDriverBuilder).build_remote (fun _ => none) 3 5).sleeps.get
      ⟨0, by decide⟩ = 3 ∧
    (({} : WebDriverBuilder).build failCollab "standalone").remoteSleeps.sum ≤ 6 := by
  constructor
  · have := C4_sleep_policy.2.1 {} (fun _ => none) 3 5 0 (by decide)
    simpa using this
  · exact C4_sleep_policy.2.2.2.2 {} failCollab

/-- Counterexample for C3 as stated: for the out-of-set strategy value
"firefox", build returns None — an ok result carrying a null handle — and
raises no UnsupportedStrategy error (no such error exists in the code). -/
theorem C3_counterexample :
    (({} : WebDriverBuilder).build failCollab "firefox").result = Except.ok none :=
  rfl

/-- Claim C3, amended: for every strategy value outside the closed set
(chrome, chromium, standalone), the match falls through with no default
case, so build returns None — a null handle, not an error — makes no
remote attempt and sleeps not at all. -/
theorem C3_unrecognized_strategy (b : WebDriverBuilder) (co : Collaborators)
    (t : String) (h1 : t ≠ "chrome") (h2 : t ≠ "chromium") (h3 : t ≠ "standalone") :
    (b.build co t).result = Except.ok none ∧
    (b.build co t).remoteAttempts = 0 := by
  refine ⟨?_, ?_⟩ <;> simp [WebDriverBuilder.build, h1, h2, h3]

/-- Witness for C3: the amended theorem applied at the concrete strategy
value "safari". -/
theorem C3_unrecognized_strategy_witness :
    (({} : WebDriverBuilder).build failCollab "safari").result = Except.ok none ∧
    (({} : WebDriverBuilder).build failCollab "safari").remoteAttempts = 0 :=
  C3_unrecognized_strategy {} failCollab "safari" (by decide) (by decide) (by decide)

/-- Claim C5: for every successful build under any of the three strategies,
post-creation configuration is applied to the returned handle before it is
handed to the caller: when implicit_wait_time > 0 the handle's implicit wait
equals that value and was set exactly once, and when stealth_mode is on the
detection-suppression script has been executed exactly once — given that
the launch/connect collaborators hand over fresh handles (with no
configuration applied yet). -/
theorem C5_post_creation_config (b : WebDriverBuilder) (co : Collaborators)
    (t : String) (d : Driver)
    (hfreshL : ∀ o p, (co.launchChrome o p).implicitWaitSets = 0 ∧
      (co.launchChrome o p).stealthScriptRuns = 0)
    (hfreshR : ∀ n d0, co.remoteConnect n = some d0 →
      d0.implicitWaitSets = 0 ∧ d0.stealthScriptRuns = 0)
    (ht : t = "chrome" ∨ t = "chromium" ∨ t = "standalone")
    (hok : (b.build co t).result = Except.ok (some d)) :
    (0 < b.implicit_wait_time →
      d.implicitWait = some b.implicit_wait_time ∧ d.implicitWaitSets = 1) ∧
    (b.stealth_mode = true → d.stealthScriptRuns = 1) := by
  rcases ht with h | h | h <;> subst h
  · simp [WebDriverBuilder.build, WebDriverBuilder.build_chrome] at hok
    obtain ⟨hl1, hl2⟩ := hfreshL b.chrome_options (co.install ChromeType.GOOGLE)
    rw [← hok]
    exact config_driver_on_fresh b _ hl1 hl2
  · simp [WebDriverBuilder.build, WebDriverBuilder.build_chrome] at hok
    obtain ⟨hl1, hl2⟩ := hfreshL b.chrome_options (co.install ChromeType.CHROMIUM)
    rw [← hok]
    exact config_driver_on_fresh b _ hl1 hl2
  · cases hdr : (b.build_remote co.remoteConnect 3 5).driver with
    | none => simp [WebDriverBuilder.build, hdr] at hok
    | some d' =>
      simp [WebDriverBuilder.build, hdr] at hok
      obtain ⟨k, d0, hk, hd⟩ := build_remote_driver_some b 3 co.remoteConnect 5 d' hdr
      obtain ⟨hr1, hr2⟩ := hfreshR k d0 hk
      rw [← hok, hd]
      exact config_driver_on_fresh b d0 hr1 hr2

/-- Witness for C5: the theorem applied to a stealth-mode builder (implicit
wait 10 at its default) on the local-chrome path with trivial fresh
collaborators. -/
theorem C5_post_creation_config_witness :
    demoDriver.implicitWait = some 10 ∧ demoDriver.implicitWaitSets = 1 ∧
    demoDriver.stealthScriptRuns = 1 := by
  have h := C5_post_creation_config stealthBuilder failCollab "chrome" demoDriver
    (fun o p => ⟨rfl, rfl⟩)
    (fun n d0 hc => Option.noConfusion hc)
    (Or.inl rfl) rfl
  exact ⟨(h.1 (by decide)).1, (h.1 (by decide)).2, h.2 rfl⟩

/-- Claim C6: the option-to-launch-argument translation is a pure
deterministic function of the options alone, and every bundle with
show_browser off and container mode on yields the headless,
sandbox-disabled, shared-memory-disabled and GPU-disabled arguments. -/
theorem C6_option_translation :
    (∀ b1 b2 : WebDriverBuilder, b1 = b2 →
      WebDriverBuilder.chrome_options b1 = WebDriverBuilder.chrome_options b2) ∧
    (∀ b : WebDriverBuilder, b.show_browser = false → b.container = true →
      "--headless" ∈ b.chrome_options.arguments ∧
      "--no-sandbox" ∈ b.chrome_options.arguments ∧
      "--disable-dev-shm-usage" ∈ b.chrome_options.arguments ∧
      "--disable-gpu" ∈ b.chrome_options.arguments) := by
  constructor
  · intro b1 b2 h
    rw [h]
  · intro b h1 h2
    unfold WebDriverBuilder.chrome_options
    cases hdd : b.download_directory <;>
      by_cases hsm : b.stealth_mode = true <;>
      by_cases hag : b.agent = "" <;>
      simp [h1, h2, hdd, hsm, hag, ChromeOptions.add_argument,
        ChromeOptions.add_experimental_option]

/-- Witness for C6: both parts applied to the headless containerized
bundle. -/
theorem C6_option_translation_witness :
    WebDriverBuilder.chrome_options containerBuilder =
      WebDriverBuilder.chrome_options containerBuilder ∧
    "--headless" ∈ containerBuilder.chrome_options.arguments ∧
    "--no-sandbox" ∈ containerBuilder.chrome_options.arguments ∧
    "--disable-dev-shm-usage" ∈ containerBuilder.chrome_options.arguments ∧
    "--disable-gpu" ∈ containerBuilder.chrome_options.arguments :=
  ⟨C6_option_translation.1 containerBuilder containerBuilder rfl,
   C6_option_translation.2 containerBuilder rfl rfl⟩

/-- Claim C7: load on a storage location whose file does not exist returns
false with the driver fully untouched (no cookies installed, no refresh),
and load on an existing file that decodes to an empty cookie set also
returns false with the driver untouched. -/
theorem C7_load_missing_or_empty (w : World) (ok : Cookie → Bool) (refresh : Bool) :
    (w.fs.read w.store.location = none →
      CookieStorage.load w ok refresh = Except.ok (w.driver, false)) ∧
    (w.fs.read w.store.location = some [] →
      CookieStorage.load w ok refresh = Except.ok (w.driver, false)) := by
  constructor <;> intro h <;> simp [CookieStorage.load, h]

/-- Witness for C7: a missing file on an empty filesystem, and a present
file holding the empty cookie set. -/
theorem C7_load_missing_or_empty_witness :
    CookieStorage.load ⟨⟨"cookies.pkl"⟩, {}, []⟩ demoOk true =
      Except.ok (({} : Driver), false) ∧
    CookieStorage.load ⟨⟨"cookies.pkl"⟩, {}, [("cookies.pkl", [])]⟩ demoOk true =
      Except.ok (({} : Driver), false) :=
  ⟨(C7_load_missing_or_empty ⟨⟨"cookies.pkl"⟩, {}, []⟩ demoOk true).1 rfl,
   (C7_load_missing_or_empty ⟨⟨"cookies.pkl"⟩, {}, [("cookies.pkl", [])]⟩
      demoOk true).2 rfl⟩

/-- Claim C8: round-trip — saving a non-empty cookie set and then loading it
into a fresh session on an equivalent domain context (every stored record
installable there) installs exactly the saved cookie set into the fresh
session and returns true. -/
theorem C8_save_load_round_trip (store : CookieStorage) (d fresh : Driver)
    (fs : FS) (ok : Cookie → Bool) (refresh : Bool)
    (hne : d.cookies ≠ [])
    (hok : ∀ c ∈ d.cookies, ok c = true)
    (hfresh : fresh.cookies = []) :
    ∃ d2, CookieStorage.load
        ⟨store, fresh, (CookieStorage.save ⟨store, d, fs⟩).fs⟩ ok refresh =
        Except.ok (d2, true) ∧ d2.cookies = d.cookies :=
  load_installs_exactly store fresh (CookieStorage.save ⟨store, d, fs⟩).fs
    d.cookies ok refresh (FS.read_write_same fs store.location d.cookies)
    hne hok hfresh

/-- Witness for C8: a one-cookie session saved and reloaded at the path
"cookies.pkl". -/
theorem C8_save_load_round_trip_witness :
    ∃ d2, CookieStorage.load
        ⟨⟨"cookies.pkl"⟩, {},
          (CookieStorage.save ⟨⟨"cookies.pkl"⟩, { cookies := [demoCookie] }, []⟩).fs⟩
        demoOk true = Except.ok (d2, true) ∧ d2.cookies = [demoCookie] :=
  C8_save_load_round_trip ⟨"cookies.pkl"⟩ { cookies := [demoCookie] } {} []
    demoOk true (by simp) (fun c hc => by
      simp at hc
      rw [hc]
      rfl) rfl

/-- Claim C9: save overwrites rather than appends — after save(session1)
then save(session2) at the same path, the stored blob is exactly session2's
snapshot, and a subsequent load into a fresh session installs exactly
session2's cookie set (never the union or concatenation of both
snapshots). -/
theorem C9_save_overwrites (store : CookieStorage) (d1 d2 fresh : Driver)
    (fs : FS) (ok : Cookie → Bool)
    (hne : d2.cookies ≠ [])
    (hok : ∀ c ∈ d2.cookies, ok c = true)
    (hfresh : fresh.cookies = []) :
    (CookieStorage.save ⟨store, d2, (CookieStorage.save ⟨store, d1, fs⟩).fs⟩).fs.read
      store.location = some d2.cookies ∧
    ∃ d3, CookieStorage.load
        ⟨store, fresh,
          (CookieStorage.save ⟨store, d2, (CookieStorage.save ⟨store, d1, fs⟩).fs⟩).fs⟩
        ok true = Except.ok (d3, true) ∧ d3.cookies = d2.cookies := by
  refine ⟨FS.read_write_same _ store.location d2.cookies, ?_⟩
  exact load_installs_exactly store fresh _ d2.cookies ok true
    (FS.read_write_same _ store.location d2.cookies) hne hok hfresh

/-- Witness for C9: two successive saves of different one-cookie snapshots
at the same path; the load yields only the second snapshot. -/
theorem C9_save_overwrites_witness :
    (CookieStorage.save ⟨⟨"cookies.pkl"⟩, { cookies := [demoCookie2] },
        (CookieStorage.save ⟨⟨"cookies.pkl"⟩, { cookies := [demoCookie] }, []⟩).fs⟩).fs.read
      "cookies.pkl" = some [demoCookie2] ∧
    ∃ d3, CookieStorage.load
        ⟨⟨"cookies.pkl"⟩, {},
          (CookieStorage.save ⟨⟨"cookies.pkl"⟩, { cookies := [demoCookie2] },
            (CookieStorage.save ⟨⟨"cookies.pkl"⟩, { cookies := [demoCookie] }, []⟩).fs⟩).fs⟩
        demoOk true = Except.ok (d3, true) ∧ d3.cookies = [demoCookie2] :=
  C9_save_overwrites ⟨"cookies.pkl"⟩ { cookies := [demoCookie] }
    { cookies := [demoCookie2] } {} [] demoOk (by simp)
    (fun c hc => by
      simp at hc
      rw [hc]
      rfl) rfl

/-- Claim C10: frame property of save — it leaves the driver handle and the
store's configured location unchanged, writes the captured cookie set at the
store's location, and leaves the content stored at every other path
unchanged. -/
theorem C10_save_frame (w : World) :
    (CookieStorage.save w).driver = w.driver ∧
    (CookieStorage.save w).store = w.store ∧
    (CookieStorage.save w).fs.read w.store.location = some w.driver.cookies ∧
    ∀ p, p ≠ w.store.location → (CookieStorage.save w).fs.read p = w.fs.read p := by
  refine ⟨rfl, rfl, FS.read_write_same _ _ _, fun p hp =>
    FS.read_write_other _ _ _ _ (fun h => hp h.symm)⟩

/-- Witness for C10: a save at "cookies.pkl" leaves the blob stored at the
unrelated path "other.pkl" unchanged, as well as driver and store. -/
theorem C10_save_frame_witness :
    (CookieStorage.save ⟨⟨"cookies.pkl"⟩, { cookies := [demoCookie] },
      [("other.pkl", [demoCookie2])]⟩).driver = { cookies := [demoCookie] } ∧
    (CookieStorage.save ⟨⟨"cookies.pkl"⟩, { cookies := [demoCookie] },
      [("other.pkl", [demoCookie2])]⟩).fs.read "other.pkl" = some [demoCookie2] :=
  ⟨(C10_save_frame ⟨⟨"cookies.pkl"⟩, { cookies := [demoCookie] },
      [("other.pkl", [demoCookie2])]⟩).1,
   (C10_save_frame ⟨⟨"cookies.pkl"⟩, { cookies := [demoCookie] },
      [("other.pkl", [demoCookie2])]⟩).2.2.2 "other.pkl" (by decide)⟩

/-- Claim C2, code behavior at the failing input: the stored cookie list
holds a well-formed record, then one whose installation the session rejects
(domain mismatch), then another well-formed record.  The add-cookie
exception is not caught inside load (only FileNotFoundError is), so load
propagates it and aborts: the call does not complete and the record after
the bad one is never installed. -/
theorem C2_single_bad_record_aborts_load :
    CookieStorage.load
      ⟨⟨"cookies.pkl"⟩, {}, [("cookies.pkl", [demoCookie, badCookie, demoCookie2])]⟩
      demoOk true = Except.error () := by
  rfl

end ScraperBase
